import Mathlib

/-!
Shallow embedding of the schummar-di dependency-injection container
(`src/index.ts`, `src/errors.ts`).

Values, factories and registrations are modelled as a small inductive
language; the container engine (`Container.resolve`, `Container.inject`,
the constructor's background-start loop, `createScope` and the async
dispose walk) is translated statement by statement into fuel-indexed
executable functions over an explicit world state.  JavaScript `Map` and
`Set` become insertion-ordered association lists, truthiness is made
explicit, and error objects become an inductive `Err` type carrying the
same message strings the source produces.
-/

namespace SchummarDI

/-- Capabilities an object instance may expose: a zero-argument `start`
method (possibly throwing with a given message), a synchronous dispose
capability (`Symbol.dispose`, possibly throwing) and an asynchronous one
(`Symbol.asyncDispose`, possibly rejecting). -/
structure ObjCaps where
  hasStart : Bool
  startThrowMsg : Option String
  hasSyncDispose : Bool
  syncDisposeThrowMsg : Option String
  hasAsyncDispose : Bool
  asyncDisposeThrowMsg : Option String
deriving Repr, DecidableEq

/-- JavaScript values relevant to the container: numbers, strings,
booleans, `null`, `undefined`, and object instances identified by an
allocation id and carrying their capabilities. -/
inductive Val
  | num (n : Int)
  | str (s : String)
  | vbool (b : Bool)
  | vnull
  | undef
  | obj (id : Nat) (caps : ObjCaps)
deriving Repr, DecidableEq

/-- JavaScript truthiness, as used by `if (fromParent)` and
`if (!service)` in the source. -/
def truthy : Val → Bool
  | .num n => n != 0
  | .str s => s != ""
  | .vbool b => b
  | .vnull => false
  | .undef => false
  | .obj _ _ => true

/-- Thrown error objects: plain `Error`s, `TypeError`s, the
`InjectionError` of `errors.ts` (path plus stringified cause) and the
`DisposeError` aggregate (list of key/cause pairs). -/
inductive Err
  | plain (msg : String)
  | typeErr (msg : String)
  | injection (path : List String) (causeMsg : String)
  | disposeErr (errs : List (String × String))
deriving Repr, DecidableEq

/-- The `message` of each error object, mirroring `errors.ts`:
`InjectionError` renders `Injection error for <path joined by arrows>:
<cause>`, `DisposeError` renders `<n> error(s) during dispose: ...`. -/
def errMessage : Err → String
  | .plain m => m
  | .typeErr m => m
  | .injection path causeMsg =>
      "Injection error for " ++ String.intercalate " -> " path ++ ": " ++ causeMsg
  | .disposeErr errs =>
      toString errs.length ++ " error(s) during dispose: " ++
        String.intercalate ", "
          (errs.map (fun p => "Injection error for " ++ p.1 ++ ": " ++ p.2))

/-- `error instanceof InjectionError`. -/
def Err.isInjection : Err → Bool
  | .injection _ _ => true
  | _ => false

/-- `error instanceof TypeError`. -/
def Err.isTypeErr : Err → Bool
  | .typeErr _ => true
  | _ => false

/-- Does the pattern occur at the head of the character list? -/
def charsPre : List Char → List Char → Bool
  | [], _ => true
  | _ :: _, [] => false
  | a :: as, b :: bs => a == b && charsPre as bs

/-- Does the pattern occur anywhere in the character list? -/
def charsSub (pat : List Char) : List Char → Bool
  | [] => charsPre pat []
  | b :: bs => charsPre pat (b :: bs) || charsSub pat bs

/-- `String.prototype.includes`. -/
def strIncludes (s pat : String) : Bool :=
  charsSub pat.data s.data

/-- The message fragment `inject` looks for to decide that a function
must be re-invoked as a constructor. -/
def magicMsg : String := "cannot be invoked without \x27new\x27"

/-- Behaviour of one factory invocation: return a value, return a fresh
number / fresh object (modelling side-effecting factories that produce a
new result each call), throw, or read a dependency off the
dependency-access proxy and continue. -/
inductive Body
  | ret (v : Val)
  | retFreshNum
  | retFreshObj (caps : ObjCaps)
  | throwE (e : Err)
  | seqAccess (key : String) (rest : Body)
deriving Repr, DecidableEq

/-- A registered service value: either a function (with an id standing
for its reference identity, a behaviour when called and a behaviour when
constructed with `new`) or a constant value. -/
inductive Svc
  | func (fid : Nat) (callB : Body) (ctorB : Body)
  | constV (v : Val)
deriving Repr, DecidableEq

/-- Reference identity of a service, used by
`entry.service.findIndex((s) => s === forService)`. -/
def svcFid : Svc → Option Nat
  | .func fid _ _ => some fid
  | .constV _ => none

/-- `ServiceEntry.service`: a single service or an array of services. -/
inductive SvcSpec
  | one (s : Svc)
  | many (ss : List Svc)
deriving Repr, DecidableEq

/-- The four lifecycle tags of the source (`scoped` is spelled
`scopedLc` because `scoped` is a Lean keyword). -/
inductive LifeCycle
  | singleton
  | scopedLc
  | transient
  | background
deriving Repr, DecidableEq

/-- A normalized `ServiceEntry`. -/
structure Entry where
  spec : SvcSpec
  lifeCycle : LifeCycle
deriving Repr, DecidableEq

/-- The shapes a `ServiceMap` value can take before normalization:
a bare service/constant, an array of services, or an explicit entry with
`service` and `lifeCycle` fields. -/
inductive RegValue
  | bare (s : Svc)
  | arr (ss : List Svc)
  | entryR (spec : SvcSpec) (lc : LifeCycle)
deriving Repr, DecidableEq

/-- Normalization performed in the `Container` constructor: an explicit
entry is kept, anything else is wrapped with the default `singleton`
lifecycle (arrays stay arrays). -/
def normalizeEntry : RegValue → Entry
  | .bare s => ⟨.one s, .singleton⟩
  | .arr ss => ⟨.many ss, .singleton⟩
  | .entryR sp lc => ⟨sp, lc⟩

/-- Normalize a whole service map, preserving declaration order. -/
def normalizeMap (smap : List (String × RegValue)) : List (String × Entry) :=
  smap.map (fun p => (p.1, normalizeEntry p.2))

/-- The exported lifecycle-tag helpers `singleton(...service)`,
`scoped(...service)`, `transient(...service)` and
`background(...service)` all collect their rest arguments into an array
and attach the corresponding tag. -/
def tagHelper (lc : LifeCycle) (ss : List Svc) : RegValue :=
  .entryR (.many ss) lc

/-- Per-container mutable state: the `instances` map and the
`disposables` map (instance, key), both insertion-ordered. -/
structure CState where
  instances : List (String × Val)
  disposables : List (Val × String)
deriving Repr, DecidableEq

/-- The world: one `CState` frame and one `resolving` set per container,
a fresh-allocation counter, and instrumentation recording every factory
invocation (by function id), every `start()` invocation and every
dispose-capability invocation (by object id). -/
structure World where
  frames : List CState
  resolvingS : List (List String)
  freshCtr : Nat
  factoryCalls : List Nat
  startCalls : List Nat
  syncDisposeCalls : List Nat
  asyncDisposeCalls : List Nat
deriving Repr

/-- A container: its frame index in the world, the raw service map it
was constructed from (kept for `createScope`), the normalized services
and an optional parent container. -/
inductive ContainerRef
  | mk (idx : Nat) (rawMap : List (String × RegValue))
       (services : List (String × Entry)) (parent : Option ContainerRef)

def ContainerRef.idx : ContainerRef → Nat
  | .mk i _ _ _ => i

def ContainerRef.rawMap : ContainerRef → List (String × RegValue)
  | .mk _ m _ _ => m

def ContainerRef.services : ContainerRef → List (String × Entry)
  | .mk _ _ s _ => s

def ContainerRef.parent : ContainerRef → Option ContainerRef
  | .mk _ _ _ p => p

/-- `this.services.get(key)`. -/
def lookupEntry (c : ContainerRef) (key : String) : Option Entry :=
  (c.services.find? (fun p => p.1 == key)).map (fun p => p.2)

/-- `Map.prototype.get` on an association list. -/
def mapGet (m : List (String × Val)) (k : String) : Option Val :=
  (m.find? (fun p => p.1 == k)).map (fun p => p.2)

/-- `Map.prototype.set`: replace in place, else append. -/
def mapSet : List (String × Val) → String → Val → List (String × Val)
  | [], k, v => [(k, v)]
  | (k', v') :: rest, k, v =>
      if k' == k then (k, v) :: rest else (k', v') :: mapSet rest k v

/-- `Map.prototype.set` for the disposables map, keyed by instance. -/
def dmapSet : List (Val × String) → Val → String → List (Val × String)
  | [], v, k => [(v, k)]
  | (v', k') :: rest, v, k =>
      if v' == v then (v, k) :: rest else (v', k') :: dmapSet rest v k

/-- `Set.prototype.add`: no-op when present, else append. -/
def setAdd (s : List String) (k : String) : List String :=
  if s.contains k then s else s ++ [k]

/-- `Set.prototype.delete`. -/
def setDelete (s : List String) (k : String) : List String :=
  s.filter (fun x => x != k)

/-- Count the occurrences of a number in an instrumentation list. -/
def countNat (l : List Nat) (x : Nat) : Nat :=
  (l.filter (fun y => y == x)).length

def getFrame (w : World) (i : Nat) : CState :=
  (w.frames.get? i).getD ⟨[], []⟩

def setFrame (w : World) (i : Nat) (s : CState) : World :=
  { w with frames := w.frames.set i s }

def getResolving (w : World) (i : Nat) : List String :=
  (w.resolvingS.get? i).getD []

def setResolving (w : World) (i : Nat) (s : List String) : World :=
  { w with resolvingS := w.resolvingS.set i s }

def delResolving (w : World) (i : Nat) (k : String) : World :=
  setResolving w i (setDelete (getResolving w i) k)

def updInstances (w : World) (i : Nat) (k : String) (v : Val) : World :=
  let f := getFrame w i
  setFrame w i ⟨mapSet f.instances k v, f.disposables⟩

def updDisposables (w : World) (i : Nat) (v : Val) (k : String) : World :=
  let f := getFrame w i
  setFrame w i ⟨f.instances, dmapSet f.disposables v k⟩

def recordCall (w : World) (fid : Nat) : World :=
  { w with factoryCalls := w.factoryCalls ++ [fid] }

def recordStart (w : World) (oid : Nat) : World :=
  { w with startCalls := w.startCalls ++ [oid] }

def bumpFresh (w : World) : World :=
  { w with freshCtr := w.freshCtr + 1 }

/-- `isDisposable`: an object exposing a sync or async dispose symbol. -/
def isDisposableV : Val → Bool
  | .obj _ caps => caps.hasSyncDispose || caps.hasAsyncDispose
  | _ => false

/-- The circular-dependency message built at `resolve` line 133. -/
def circMsg (res : List String) (key : String) : String :=
  "Circular dependency detected: " ++ String.intercalate " -> " res ++
    " -> " ++ key ++
    ". Access the dependency after the constructor to avoid this error."

/-- Results of a (fallible) operation returning a value. -/
abbrev Res := Except Err Val

/-- The per-`inject` memoization table of the dependency-access proxy
(`resolvedServices`). -/
abbrev Memo := List (String × Val)

mutual

/-- `Container.resolve(key, forService?)`, fuel-indexed.  Step one is
the parent delegation for `singleton`/`background` lifecycles with its
truthiness test `if (fromParent)`; the rest is delegated to
`resolveLocal`. -/
def resolveF : Nat → ContainerRef → String → Option Nat → World → Res × World
  | 0, _, _, _, w => (.error (.plain "out of fuel"), w)
  | fuel + 1, c, key, forService, w =>
    match lookupEntry c key with
    | none => (.error (.plain ("Service " ++ key ++ " not found")), w)
    | some entry =>
      if entry.lifeCycle == .singleton || entry.lifeCycle == .background then
        match c.parent with
        | some p =>
          match resolveF fuel p key forService w with
          | (.error e, w1) => (.error e, w1)
          | (.ok v, w1) =>
            if truthy v then (.ok v, w1)
            else resolveLocal fuel c key forService entry w1
        | none => resolveLocal fuel c key forService entry w
      else resolveLocal fuel c key forService entry w

/-- The body of `Container.resolve` after the parent step: local
instance cache, chain-index selection via `findIndex`, the cycle check,
and the try/catch/finally around `inject`. -/
def resolveLocal : Nat → ContainerRef → String → Option Nat → Entry → World → Res × World
  | 0, _, _, _, _, w => (.error (.plain "out of fuel"), w)
  | fuel + 1, c, key, forService, entry, w =>
    match (if entry.lifeCycle == .transient then none
           else mapGet (getFrame w c.idx).instances key) with
    | some v => (.ok v, w)
    | none =>
      let sel : Option Svc × Bool :=
        match entry.spec with
        | .many ss =>
          match forService with
          | some fsid =>
            match ss.findIdx? (fun s => svcFid s == some fsid) with
            | some i => (if i == 0 then none else ss.get? (i - 1), true)
            | none => (ss.getLast?, false)
          | none => (ss.getLast?, false)
        | .one s => (some s, false)
      match sel with
      | (none, _) => (.error (.plain ("Service " ++ key ++ " not found")), w)
      | (some svc, isResolvingNested) =>
        let res := getResolving w c.idx
        if !isResolvingNested && res.contains key then
          (.error (.plain (circMsg res key)), w)
        else
          let w1 := setResolving w c.idx (setAdd res key)
          match injectF fuel c svc w1 with
          | (.ok v, w2) =>
            let w3 := if entry.lifeCycle == .transient then w2
                      else updInstances w2 c.idx key v
            let w4 := if isDisposableV v then updDisposables w3 c.idx v key
                      else w3
            (.ok v, delResolving w4 c.idx key)
          | (.error e, w2) =>
            let e' := if e.isInjection then e
                      else Err.injection (getResolving w2 c.idx) (errMessage e)
            (.error e', delResolving w2 c.idx key)

/-- `Container.inject(implementation)`: constants are returned as-is;
functions are called with the dependency-access proxy, and a `TypeError`
whose message contains `magicMsg` triggers the `new` fallback with the
same proxy (and hence the same memo table). -/
def injectF : Nat → ContainerRef → Svc → World → Res × World
  | 0, _, _, w => (.error (.plain "out of fuel"), w)
  | fuel + 1, c, svc, w =>
    match svc with
    | .constV v => (.ok v, w)
    | .func fid callB ctorB =>
      let w1 := recordCall w fid
      match runBody fuel c fid callB [] w1 with
      | (.ok v, w2, _) => (.ok v, w2)
      | (.error e, w2, memo) =>
        if e.isTypeErr && strIncludes (errMessage e) magicMsg then
          let w3 := recordCall w2 fid
          match runBody fuel c fid ctorB memo w3 with
          | (r, w4, _) => (r, w4)
        else (.error e, w2)

/-- Run a factory body with the per-invocation memo table of the
dependency-access proxy. -/
def runBody : Nat → ContainerRef → Nat → Body → Memo → World → Res × World × Memo
  | 0, _, _, _, memo, w => (.error (.plain "out of fuel"), w, memo)
  | fuel + 1, c, fid, body, memo, w =>
    match body with
    | .ret v => (.ok v, w, memo)
    | .retFreshNum => (.ok (.num (Int.ofNat w.freshCtr)), bumpFresh w, memo)
    | .retFreshObj caps => (.ok (.obj w.freshCtr caps), bumpFresh w, memo)
    | .throwE e => (.error e, w, memo)
    | .seqAccess key rest =>
      match accessDep fuel c fid key memo w with
      | (.error e, w1, memo1) => (.error e, w1, memo1)
      | (.ok _, w1, memo1) => runBody fuel c fid rest memo1 w1

/-- The proxy `get` trap of `inject`: look the key up in
`resolvedServices`; when the cached value is absent or falsy
(`if (!service)`), resolve with the current factory as `forService` and
overwrite the memo entry. -/
def accessDep : Nat → ContainerRef → Nat → String → Memo → World → Res × World × Memo
  | 0, _, _, _, memo, w => (.error (.plain "out of fuel"), w, memo)
  | fuel + 1, c, fid, key, memo, w =>
    let doResolve : Res × World × Memo :=
      match resolveF fuel c key (some fid) w with
      | (.error e, w1) => (.error e, w1, memo)
      | (.ok v, w1) => (.ok v, w1, mapSet memo key v)
    match mapGet memo key with
    | some v => if truthy v then (.ok v, w, memo) else doResolve
    | none => doResolve

end

/-- The background-start loop at the end of the `Container`
constructor: for every key with the `background` lifecycle, resolve it
and, when the instance is an object exposing a `start` function, invoke
`start()`; errors of `resolve` or of `start` propagate out of
construction. -/
def startLoop (fuel : Nat) (c : ContainerRef) :
    List (String × Entry) → World → Except Err Unit × World
  | [], w => (.ok (), w)
  | (key, entry) :: rest, w =>
    if entry.lifeCycle == .background then
      match resolveF fuel c key none w with
      | (.error e, w1) => (.error e, w1)
      | (.ok v, w1) =>
        match v with
        | .obj oid caps =>
          if caps.hasStart then
            match caps.startThrowMsg with
            | some m => (.error (.plain m), recordStart w1 oid)
            | none => startLoop fuel c rest (recordStart w1 oid)
          else startLoop fuel c rest w1
        | _ => startLoop fuel c rest w1
    else startLoop fuel c rest w

/-- The `Container` constructor: normalize the service map (with no
validation whatsoever), allocate a fresh frame and resolving set, then
run the background-start loop. -/
def mkContainer (fuel : Nat) (smap : List (String × RegValue))
    (parent : Option ContainerRef) (w : World) :
    Except Err ContainerRef × World :=
  let services := normalizeMap smap
  let idx := w.frames.length
  let w1 : World := { w with
    frames := w.frames ++ [⟨[], []⟩],
    resolvingS := w.resolvingS ++ [[]] }
  let c := ContainerRef.mk idx smap services parent
  match startLoop fuel c services w1 with
  | (.ok _, w2) => (.ok c, w2)
  | (.error e, w2) => (.error e, w2)

/-- `Container.createScope()`: a new container over the same raw service
map with `this` as parent. -/
def createScope (fuel : Nat) (c : ContainerRef) (w : World) :
    Except Err ContainerRef × World :=
  mkContainer fuel c.rawMap (some c) w

/-- One step of the dispose walk for a single tracked disposable:
invoke the sync capability first (collecting a thrown error), then the
async capability (collecting a rejection), both always attempted. -/
def disposeOne (w : World) (v : Val) (key : String) :
    World × List (String × String) :=
  match v with
  | .obj oid caps =>
    let (w1, errs1) :=
      if caps.hasSyncDispose then
        let w' := { w with syncDisposeCalls := w.syncDisposeCalls ++ [oid] }
        match caps.syncDisposeThrowMsg with
        | some m => (w', [(key, m)])
        | none => (w', [])
      else (w, [])
    if caps.hasAsyncDispose then
      let w2 := { w1 with asyncDisposeCalls := w1.asyncDisposeCalls ++ [oid] }
      match caps.asyncDisposeThrowMsg with
      | some m => (w2, errs1 ++ [(key, m)])
      | none => (w2, errs1)
    else (w1, errs1)
  | _ => (w, [])

/-- The loop of `[Symbol.asyncDispose]` over the disposables map. -/
def disposeLoop : World → List (Val × String) → World × List (String × String)
  | w, [] => (w, [])
  | w, (v, key) :: rest =>
    let (w1, errs) := disposeOne w v key
    let (w2, errsRest) := disposeLoop w1 rest
    (w2, errs ++ errsRest)

/-- `Container[Symbol.asyncDispose]`: walk every tracked disposable,
collect failures, clear both caches regardless, and reject with a
`DisposeError` aggregate when any failure occurred. -/
def disposeC (c : ContainerRef) (w : World) : Except Err Unit × World :=
  let f := getFrame w c.idx
  let (w1, errs) := disposeLoop w f.disposables
  let w2 := setFrame w1 c.idx ⟨[], []⟩
  if errs.isEmpty then (.ok (), w2)
  else (.error (.disposeErr errs), w2)

/-- The public members of the `Container` class, in declaration order. -/
def containerSurface : List String :=
  ["constructor", "inject", "resolve", "asyncDispose", "createScope", "with"]

/-- The world before any container exists. -/
def emptyWorld : World := ⟨[], [], 0, [], [], [], []⟩

/-- Construction glue for scenarios whose construction cannot fail:
returns the container and the post-construction world. -/
def afterBuild (smap : List (String × RegValue)) : ContainerRef × World :=
  match mkContainer 30 smap none emptyWorld with
  | (.ok c, w) => (c, w)
  | (.error _, w) => (ContainerRef.mk 0 smap (normalizeMap smap) none, w)

/-- Whether a construction attempt succeeded. -/
def buildSucceeded (r : Except Err ContainerRef) : Bool :=
  match r with
  | .ok _ => true
  | .error _ => false

/-- Build a container over a map and resolve one key once. -/
def runResolve (smap : List (String × RegValue)) (key : String) : Res :=
  (resolveF 30 (afterBuild smap).1 key none (afterBuild smap).2).1

/-- An object with no capabilities. -/
def noCaps : ObjCaps := ⟨false, none, false, none, false, none⟩

/-! ### Claim C1: circular-dependency error message -/

/-- Factory registered under `A`: reads `B` during construction. -/
def svcA1 : Svc := .func 1 (.seqAccess "B" (.ret (.num 1))) (.ret (.num 1))

/-- Factory registered under `B`: reads `A` during construction. -/
def svcB1 : Svc := .func 2 (.seqAccess "A" (.ret (.num 2))) (.ret (.num 2))

/-- Two keys whose factories synchronously read each other. -/
def c1Map : List (String × RegValue) := [("A", .bare svcA1), ("B", .bare svcB1)]

/-- The message of the error `resolve("A")` fails with, if any. -/
def c1ErrMsg : Option String :=
  match runResolve c1Map "A" with
  | .error e => some (errMessage e)
  | .ok _ => none

/-- The full circular-dependency message the code builds for the path
`A -> B -> A`. -/
def circFullA : String :=
  "Circular dependency detected: A -> B -> A. Access the dependency after the constructor to avoid this error."

/-- The full circular-dependency message for the path `B -> A -> B`. -/
def circFullB : String :=
  "Circular dependency detected: B -> A -> B. Access the dependency after the constructor to avoid this error."

/-- Claim C1, counterexample: for the two mutually-reading keys `A` and
`B`, resolution does fail, but the error message is not exactly
`Circular dependency detected: A -> B -> A` — the code appends advisory
text and wraps the error in an `InjectionError`. -/
theorem c1_claim_counterexample :
    c1ErrMsg ≠ some "Circular dependency detected: A -> B -> A" ∧
    c1ErrMsg ≠ none := by
  decide

/-- Claim C1, amended: resolving either of two mutually-reading keys
fails with an `InjectionError` wrapping the circular-dependency error;
the circular path appears in reference order ending with the repeated
key, followed by `. Access the dependency after the constructor to avoid
this error.`, and the surfaced message is prefixed with
`Injection error for A -> B: `. -/
theorem c1_cycle_error_wrapped :
    runResolve c1Map "A" = .error (.injection ["A", "B"] circFullA) ∧
    runResolve c1Map "B" = .error (.injection ["B", "A"] circFullB) ∧
    errMessage (Err.injection ["A", "B"] circFullA) =
      "Injection error for A -> B: " ++ circFullA :=
  ⟨rfl, rfl, rfl⟩

/-! ### Claim C2: failed builds and the instance cache -/

/-- Inner decorator layer under key `k`: builds a fresh object. -/
def innerSvc : Svc := .func 3 (.retFreshObj noCaps) (.retFreshObj noCaps)

/-- Outer decorator layer under key `k`: reads the inner layer through
the same key, then throws. -/
def outerSvc : Svc :=
  .func 4 (.seqAccess "k" (.throwE (.plain "outer boom"))) (.ret .undef)

/-- A decorator chain whose outermost factory throws after the inner
layer has been built. -/
def c2Map : List (String × RegValue) := [("k", .arr [innerSvc, outerSvc])]

def c2B : ContainerRef × World := afterBuild c2Map

/-- First (failing) resolve of `k`. -/
def c2R1 : Res × World := resolveF 30 c2B.1 "k" none c2B.2

/-- What the instance cache holds for `k` after the failed resolve. -/
def c2Cached : Option Val := mapGet (getFrame c2R1.2 0).instances "k"

/-- Second resolve of `k`, after the failure. -/
def c2R2 : Res × World := resolveF 30 c2B.1 "k" none c2R1.2

/-- Claim C2, counterexample: after the failed resolve of the decorator
chain `k`, the inner layer's instance (object 0) is cached for `k`, and
the subsequent resolve returns it without invoking either chain factory
again (both invocation counts stay at 1). -/
theorem c2_claim_counterexample :
    c2Cached = some (Val.obj 0 noCaps) ∧
    c2R2.1 = .ok (Val.obj 0 noCaps) ∧
    countNat c2R2.2.factoryCalls 4 = 1 ∧
    countNat c2R2.2.factoryCalls 3 = 1 :=
  ⟨rfl, rfl, by decide, by decide⟩

/-- A single factory that always throws, registered under `s`. -/
def simpleThrow : Svc := .func 18 (.throwE (.plain "boom")) (.ret .undef)

def c2sMap : List (String × RegValue) := [("s", .bare simpleThrow)]

def c2sB : ContainerRef × World := afterBuild c2sMap

def c2sR1 : Res × World := resolveF 30 c2sB.1 "s" none c2sB.2

/-- Cache contents for `s` after the failed resolve. -/
def c2sCached : Option Val := mapGet (getFrame c2sR1.2 0).instances "s"

def c2sR2 : Res × World := resolveF 30 c2sB.1 "s" none c2sR1.2

/-- Claim C2, amended: a failed resolve of a single-factory registration
leaves no cached instance and a retry invokes the factory again (two
recorded invocations); but in a decorator chain whose outer factory
throws after the inner layer was built, the inner instance stays cached
under the key and the next resolve returns it. -/
theorem c2_failed_build_cache :
    c2sR1.1 = .error (.injection ["s"] "boom") ∧
    c2sCached = none ∧
    countNat c2sR2.2.factoryCalls 18 = 2 ∧
    c2R1.1 = .error (.injection [] "outer boom") ∧
    c2R2.1 = .ok (Val.obj 0 noCaps) :=
  ⟨rfl, rfl, by decide, rfl, rfl⟩

/-! ### Claim C3: start invoked at most once per instance -/

/-- Capabilities of a background service exposing `start`. -/
def startObjCaps : ObjCaps := ⟨true, none, false, none, false, none⟩

/-- Factory for the background service. -/
def bgSvc : Svc := .func 5 (.retFreshObj startObjCaps) (.retFreshObj startObjCaps)

def c3Map : List (String × RegValue) := [("bg", tagHelper .background [bgSvc])]

def c3B : ContainerRef × World := afterBuild c3Map

def c3R1 : Res × World := resolveF 30 c3B.1 "bg" none c3B.2

def c3R2 : Res × World := resolveF 30 c3B.1 "bg" none c3R1.2

/-- Creating a child scope of the container. -/
def c3Scope : Except Err ContainerRef × World := createScope 30 c3B.1 c3R2.2

def c3S : ContainerRef :=
  match c3Scope.1 with
  | .ok s => s
  | .error _ => c3B.1

def c3R3 : Res × World := resolveF 30 c3S "bg" none c3Scope.2

/-- Claim C3, counterexample: after `createScope()`, the shared
background instance (object 0) has had `start` invoked twice — once by
the parent's constructor and once more by the child's constructor. -/
theorem c3_claim_counterexample :
    c3Scope.2.startCalls = [0, 0] ∧
    c3R3.1 = .ok (Val.obj 0 startObjCaps) :=
  ⟨rfl, rfl⟩

/-- Claim C3, amended: within one container, `start` runs exactly once
per background instance across construction and repeated resolves; but
every `createScope()` child construction eagerly re-resolves background
keys, receives the parent's shared instance, and invokes `start` on it
again. -/
theorem c3_start_once_per_container :
    c3B.2.startCalls = [0] ∧
    c3R1.1 = .ok (Val.obj 0 startObjCaps) ∧
    c3R2.1 = .ok (Val.obj 0 startObjCaps) ∧
    c3R2.2.startCalls = [0] ∧
    c3Scope.2.startCalls = [0, 0] ∧
    c3R3.2.startCalls = [0, 0] :=
  ⟨rfl, rfl, rfl, rfl, rfl, rfl⟩

/-! ### Claim C4: synchronously-throwing start of a background key -/

/-- Capabilities of a background service whose `start` throws. -/
def startThrowCaps : ObjCaps := ⟨true, some "start boom", false, none, false, none⟩

def bgThrowSvc : Svc :=
  .func 6 (.retFreshObj startThrowCaps) (.retFreshObj startThrowCaps)

def c4Map : List (String × RegValue) := [("bg", tagHelper .background [bgThrowSvc])]

/-- Constructing a container over the throwing background key. -/
def c4Build : Except Err ContainerRef × World := mkContainer 30 c4Map none emptyWorld

/-- Claim C4, counterexample: constructing a container whose background
instance's `start` throws synchronously does not succeed — the failure
is not captured and stored, it aborts construction. -/
theorem c4_claim_counterexample :
    buildSucceeded c4Build.1 = false := by
  decide

/-- Claim C4, amended: the synchronous `start` failure propagates out of
container construction as the thrown error itself (after `start` was
invoked once); nothing is captured as a `StartError` — the `StartError`
class of `errors.ts` is never used by the container. -/
theorem c4_start_error_propagates :
    c4Build.1 = .error (.plain "start boom") ∧
    c4Build.2.startCalls = [0] :=
  ⟨rfl, rfl⟩

/-! ### Claim C5: scoped isolation and singleton sharing across scopes -/

/-- Scoped factory producing a fresh object per build. -/
def scSvc : Svc := .func 7 (.retFreshObj noCaps) (.retFreshObj noCaps)

/-- Singleton factory producing a fresh (truthy) object per build. -/
def sgSvcT : Svc := .func 8 (.retFreshObj noCaps) (.retFreshObj noCaps)

def c5Map : List (String × RegValue) :=
  [("sc", tagHelper .scopedLc [scSvc]), ("sg", tagHelper .singleton [sgSvcT])]

def c5B : ContainerRef × World := afterBuild c5Map

/-- Resolve the scoped key on the parent container `C`. -/
def c5r1 : Res × World := resolveF 30 c5B.1 "sc" none c5B.2

def c5scope : Except Err ContainerRef × World := createScope 30 c5B.1 c5r1.2

def c5S : ContainerRef :=
  match c5scope.1 with
  | .ok s => s
  | .error _ => c5B.1

/-- First resolve of the scoped key on the child scope `S`. -/
def c5r2 : Res × World := resolveF 30 c5S "sc" none c5scope.2

/-- Second resolve of the scoped key on `S`. -/
def c5r3 : Res × World := resolveF 30 c5S "sc" none c5r2.2

/-- Resolve the singleton key on `C`. -/
def c5r4 : Res × World := resolveF 30 c5B.1 "sg" none c5r3.2

/-- Resolve the singleton key on `S`. -/
def c5r5 : Res × World := resolveF 30 c5S "sg" none c5r4.2

/-- Singleton factory with a falsy first result: it returns the current
fresh counter, `0` on its first invocation and `1` on its second. -/
def sgSvcF : Svc := .func 9 .retFreshNum .retFreshNum

def c5fMap : List (String × RegValue) := [("fs", tagHelper .singleton [sgSvcF])]

def c5fB : ContainerRef × World := afterBuild c5fMap

def c5fr1 : Res × World := resolveF 30 c5fB.1 "fs" none c5fB.2

def c5fScope : Except Err ContainerRef × World := createScope 30 c5fB.1 c5fr1.2

def c5fS : ContainerRef :=
  match c5fScope.1 with
  | .ok s => s
  | .error _ => c5fB.1

def c5fr2 : Res × World := resolveF 30 c5fS "fs" none c5fScope.2

/-- Claim C5, counterexample: when the singleton factory's cached value
on the parent is falsy (`0`), resolving the key on the child scope does
not return the parent's instance — the truthiness test `if (fromParent)`
falls through, the factory runs a second time, and the child returns a
different value (`1`). -/
theorem c5_claim_counterexample :
    c5fr1.1 = .ok (Val.num 0) ∧
    c5fr2.1 = .ok (Val.num 1) ∧
    countNat c5fr2.2.factoryCalls 9 = 2 :=
  ⟨rfl, rfl, by decide⟩

/-- Claim C5, amended: resolving a scoped key on `S` twice returns the
same instance, resolving it on `C` and on `S` returns different
instances, and resolving a singleton key on `S` returns the parent's
instance provided that instance is truthy; for a falsy singleton value
the child rebuilds locally and may return a different instance. -/
theorem c5_scope_sharing :
    c5r1.1 = .ok (Val.obj 0 noCaps) ∧
    c5r2.1 = .ok (Val.obj 1 noCaps) ∧
    c5r3.1 = .ok (Val.obj 1 noCaps) ∧
    c5r4.1 = .ok (Val.obj 2 noCaps) ∧
    c5r5.1 = .ok (Val.obj 2 noCaps) ∧
    c5fr1.1 = .ok (Val.num 0) ∧
    c5fr2.1 = .ok (Val.num 1) :=
  ⟨rfl, rfl, rfl, rfl, rfl, rfl, rfl⟩

/-! ### Claim C6: transient freshness and intra-build memoization -/

/-- Transient factory producing a fresh object per build. -/
def trSvc : Svc := .func 10 (.retFreshObj noCaps) (.retFreshObj noCaps)

def c6aMap : List (String × RegValue) := [("t", tagHelper .transient [trSvc])]

def c6aB : ContainerRef × World := afterBuild c6aMap

def c6ar1 : Res × World := resolveF 30 c6aB.1 "t" none c6aB.2

def c6ar2 : Res × World := resolveF 30 c6aB.1 "t" none c6ar1.2

/-- Transient dependency whose factory returns the falsy value `0`. -/
def falsyTr : Svc := .func 11 (.ret (.num 0)) (.ret (.num 0))

/-- A dependent factory that accesses the dependency `a` twice within a
single invocation. -/
def douter : Svc :=
  .func 12 (.seqAccess "a" (.seqAccess "a" (.ret (.num 5)))) (.ret (.num 5))

def c6bMap : List (String × RegValue) :=
  [("a", tagHelper .transient [falsyTr]), ("b", .bare douter)]

def c6bB : ContainerRef × World := afterBuild c6bMap

def c6br : Res × World := resolveF 30 c6bB.1 "b" none c6bB.2

/-- Transient dependency whose factory returns the truthy value `7`. -/
def truthyTr : Svc := .func 13 (.ret (.num 7)) (.ret (.num 7))

def c6cMap : List (String × RegValue) :=
  [("a", tagHelper .transient [truthyTr]), ("b", .bare douter)]

def c6cB : ContainerRef × World := afterBuild c6cMap

def c6cr : Res × World := resolveF 30 c6cB.1 "b" none c6cB.2

/-- Claim C6, counterexample: with a transient dependency whose value is
the falsy `0`, one outer resolve that accesses the dependency twice
invokes its factory twice — the proxy memo test `if (!service)` treats
the cached falsy value as absent. -/
theorem c6_claim_counterexample :
    c6br.1 = .ok (Val.num 5) ∧
    countNat c6br.2.factoryCalls 11 = 2 :=
  ⟨rfl, by decide⟩

/-- Claim C6, amended: two top-level resolves of a transient key run the
factory each time and return distinct fresh instances; within one
factory invocation a transient dependency accessed twice is built only
once when its value is truthy, but is rebuilt on each access when its
value is falsy. -/
theorem c6_transient_memoization :
    c6ar1.1 = .ok (Val.obj 0 noCaps) ∧
    c6ar2.1 = .ok (Val.obj 1 noCaps) ∧
    countNat c6ar2.2.factoryCalls 10 = 2 ∧
    countNat c6cr.2.factoryCalls 13 = 1 ∧
    countNat c6br.2.factoryCalls 11 = 2 :=
  ⟨rfl, rfl, by decide, by decide, by decide⟩

/-! ### Claim C7: registration-time validation -/

/-- A key registered with an empty factory chain. -/
def c7Map : List (String × RegValue) := [("a", .arr ([] : List Svc))]

def c7Build : Except Err ContainerRef × World := mkContainer 30 c7Map none emptyWorld

/-- A background key whose (non-empty) factory chain throws. -/
def throwingBg : Svc := .func 14 (.throwE (.plain "factory boom")) (.ret .undef)

def c7bMap : List (String × RegValue) := [("b", tagHelper .background [throwingBg])]

def c7bBuild : Except Err ContainerRef × World := mkContainer 30 c7bMap none emptyWorld

/-- Claim C7, counterexample: constructing a container over an
empty-chain registration succeeds — no registration-time error is
raised. -/
theorem c7_claim_counterexample :
    buildSucceeded c7Build.1 = true := by
  decide

/-- Claim C7, amended: registration performs no chain validation at all:
an empty chain constructs successfully and only the first resolve fails,
with the not-found error `Service a not found`; conversely container
construction can fail for reasons other than an empty chain, namely
eager background resolution (here an `InjectionError` from a throwing
background factory with a non-empty chain). -/
theorem c7_no_registration_validation :
    buildSucceeded c7Build.1 = true ∧
    runResolve c7Map "a" = .error (.plain "Service a not found") ∧
    c7bBuild.1 = .error (.injection ["b"] "factory boom") :=
  ⟨by decide, rfl, rfl⟩

/-! ### Claim C8: dispose walk and aggregate error message -/

/-- Capabilities of an instance whose synchronous dispose throws with
the given message. -/
def syncThrowCaps (m : String) : ObjCaps := ⟨false, none, true, some m, false, none⟩

/-- Capabilities of an instance with a succeeding asynchronous dispose. -/
def asyncOkCaps : ObjCaps := ⟨false, none, false, none, true, none⟩

def svc8a (m : String) : Svc :=
  .func 15 (.retFreshObj (syncThrowCaps m)) (.retFreshObj (syncThrowCaps m))

def svc8b : Svc := .func 16 (.retFreshObj asyncOkCaps) (.retFreshObj asyncOkCaps)

def svc8c : Svc := .func 17 (.retFreshObj noCaps) (.retFreshObj noCaps)

/-- Three services: synchronous disposal (throwing with message `m`),
asynchronous disposal, and no disposal capability. -/
def c8Map (m : String) : List (String × RegValue) :=
  [("a", .bare (svc8a m)), ("b", .bare svc8b), ("c", .bare svc8c)]

/-- Resolve all three instances, then dispose the container. -/
def c8Run (m : String) : Except Err Unit × World :=
  let bw := afterBuild (c8Map m)
  let r1 := resolveF 30 bw.1 "a" none bw.2
  let r2 := resolveF 30 bw.1 "b" none r1.2
  let r3 := resolveF 30 bw.1 "c" none r2.2
  disposeC bw.1 r3.2

/-- Claim C8, confirmed: with three resolved instances exposing a
throwing synchronous disposal, an asynchronous disposal, and none,
dispose invokes the synchronous capability of instance 0 exactly once
and the asynchronous capability of instance 1 exactly once (the
capability-free instance 2 is untouched), still runs the other disposal
after the throw, clears the caches, and rejects with a `DisposeError`
whose message is exactly
`1 error(s) during dispose: Injection error for a: <cause>`. -/
theorem c8_dispose_aggregate (m : String) :
    (c8Run "ServiceA error").1 =
      .error (.disposeErr [("a", "ServiceA error")]) ∧
    errMessage (Err.disposeErr [("a", m)]) =
      "1 error(s) during dispose: Injection error for a: " ++ m ∧
    (c8Run "ServiceA error").2.syncDisposeCalls = [0] ∧
    (c8Run "ServiceA error").2.asyncDisposeCalls = [1] ∧
    (getFrame (c8Run "ServiceA error").2 0).instances = [] ∧
    (getFrame (c8Run "ServiceA error").2 0).disposables = [] := by
  refine ⟨rfl, ?_, rfl, rfl, rfl, rfl⟩
  show toString (1 : Nat) ++ " error(s) during dispose: " ++
      ("Injection error for a: " ++ m) =
    "1 error(s) during dispose: Injection error for a: " ++ m
  rw [← String.append_assoc]
  rfl

/-! ### Claim C9: the resolveAll operation -/

/-- Claim C9, counterexample: the container surface has no `resolveAll`
member. -/
theorem c9_claim_counterexample :
    containerSurface.contains "resolveAll" = false := by
  decide

/-- Claim C9, amended: the container surface provides `resolve`,
`inject`, `createScope`, `with` and the async dispose member, but no
`resolveAll` operation resolving every chain position of a key. -/
theorem c9_no_resolveAll :
    containerSurface.contains "resolveAll" = false ∧
    containerSurface.contains "resolve" = true ∧
    containerSurface.contains "inject" = true ∧
    containerSurface.contains "createScope" = true ∧
    containerSurface.contains "asyncDispose" = true := by
  decide

/-! ### Claim C10: constructor fallback on the magic TypeError -/

/-- Claim C10, confirmed: when a registered function's call throws a
`TypeError` whose message contains `cannot be invoked without 'new'`,
`inject` swallows that error and re-invokes the registered value as a
constructor on the same dependency proxy — the caller observes the
result (or error) of the constructor invocation, after a second recorded
invocation of the same function. -/
theorem c10_ctor_fallback (fuel : Nat) (c : ContainerRef) (w : World)
    (fid : Nat) (m : String) (B : Body)
    (h : strIncludes m magicMsg = true) :
    injectF (fuel + 2) c (Svc.func fid (Body.throwE (Err.typeErr m)) B) w =
      ((runBody (fuel + 1) c fid B [] (recordCall (recordCall w fid) fid)).1,
       (runBody (fuel + 1) c fid B [] (recordCall (recordCall w fid) fid)).2.1) := by
  simp only [injectF, runBody, Err.isTypeErr, errMessage, h, Bool.true_and, if_true]

/-- A container with no services, for the C10 witness. -/
def witC : ContainerRef := ContainerRef.mk 0 [] [] none

/-- The native message a class constructor call without `new` throws
with. -/
def classCallMsg : String := "Class constructor Foo " ++ magicMsg

/-- Witness for C10 at a concrete input: the message satisfies the
inclusion test, and `inject` on a function throwing that `TypeError`
returns the constructor body's result. -/
theorem c10_ctor_fallback_witness :
    strIncludes classCallMsg magicMsg = true ∧
    injectF 2 witC (Svc.func 19 (Body.throwE (Err.typeErr classCallMsg))
        (Body.ret (Val.num 7))) emptyWorld =
      ((runBody 1 witC 19 (Body.ret (Val.num 7)) []
          (recordCall (recordCall emptyWorld 19) 19)).1,
       (runBody 1 witC 19 (Body.ret (Val.num 7)) []
          (recordCall (recordCall emptyWorld 19) 19)).2.1) :=
  ⟨by decide, c10_ctor_fallback 0 witC emptyWorld 19 classCallMsg
      (Body.ret (Val.num 7)) (by decide)⟩

end SchummarDI
